import Mathlib

/-!
Verification development for the DashPlatformCLI repository.

The repository is a JavaScript command-line front end for the Dash
Platform SDK. The definitions below are shallow embeddings of its
validation, request-composition and start-height resolution logic, taken
from dashLibrary.js, dashCLI.js and the library file shipped as
src/unnamed/part_003. Network calls are modelled by explicit world
records giving each provider response, JavaScript exceptions are
modelled with Except String carrying the thrown message, and JavaScript
string truthiness (undefined and the empty string are falsy) is modelled
on Option String.
-/

/-- Truthiness of a JavaScript string-or-undefined value: `none` models a
missing value and the empty string is falsy; every other string is truthy. -/
def strFalsy : Option String → Bool
  | none => true
  | some s => s = ""

/-- Model of the JavaScript expression `a || b` on string-or-undefined
values, as used by the argument-or-environment fallback chains. -/
def jsOrOpt (a b : Option String) : Option String :=
  if strFalsy a then b else a

/-- Model of the JavaScript expression `a || d` with a plain string default. -/
def jsOrDefault (a : Option String) (d : String) : String :=
  match a with
  | none => d
  | some s => if s = "" then d else s

/-- Value of the JavaScript global parseInt: either an integer or NaN. -/
inductive JsNum where
  | nan : JsNum
  | int : Int → JsNum
deriving DecidableEq, Repr

/-- Value of a hexadecimal digit character, if it is one. -/
def hexVal? (c : Char) : Option Nat :=
  if '0' ≤ c && c ≤ '9' then some (c.toNat - 48)
  else if 'a' ≤ c && c ≤ 'f' then some (c.toNat - 87)
  else if 'A' ≤ c && c ≤ 'F' then some (c.toNat - 55)
  else none

/-- Value of a decimal digit character, if it is one. -/
def decVal? (c : Char) : Option Nat :=
  if '0' ≤ c && c ≤ '9' then some (c.toNat - 48) else none

/-- Accumulates the longest leading digit run of a character list into a
number; `none` means no digit was seen at all. -/
def takeNum (base : Nat) (dig? : Char → Option Nat) : List Char → Option Nat → Option Nat
  | [], acc => acc
  | c :: rest, acc =>
    match dig? c with
    | some d => takeNum base dig? rest (some ((acc.getD 0) * base + d))
    | none => acc

/-- Model of JavaScript parseInt applied to a string with no explicit
radix: leading whitespace is skipped, an optional sign is read, a 0x or
0X prefix switches to hexadecimal, the longest leading digit run is the
value and trailing characters are ignored; no digit at all gives NaN. -/
def jsParseInt (s : String) : JsNum :=
  let cs := s.data.dropWhile fun c => c = ' ' || c = '\t' || c = '\n' || c = '\r'
  let signed : Bool × List Char :=
    match cs with
    | '-' :: rest => (true, rest)
    | '+' :: rest => (false, rest)
    | _ => (false, cs)
  let body : Option Nat :=
    match signed.2 with
    | '0' :: 'x' :: rest => takeNum 16 hexVal? rest none
    | '0' :: 'X' :: rest => takeNum 16 hexVal? rest none
    | other => takeNum 10 decVal? other none
  match body with
  | none => JsNum.nan
  | some n => JsNum.int (if signed.1 then -(n : Int) else (n : Int))

/-- Model of the JavaScript comparison `x < m` where `x` may be NaN: every
comparison against NaN is false. -/
def jsLtInt (x : JsNum) (m : Int) : Bool :=
  match x with
  | JsNum.nan => false
  | JsNum.int n => n < m

/-- ASCII letter or digit, the character class of the identity-name regex. -/
def isAlnumAscii (c : Char) : Bool :=
  ('a' ≤ c && c ≤ 'z') || ('A' ≤ c && c ≤ 'Z') || ('0' ≤ c && c ≤ '9')

/-- Test of the identity-name regex of dashLibrary.js line 4 and part_003
line 14: a leading ASCII alphanumeric character, up to 61 characters that
are alphanumeric or a hyphen, and a trailing alphanumeric character. -/
def identityNameRegexTest (s : String) : Bool :=
  match s.data with
  | [] => false
  | c :: rest =>
    match rest.getLast? with
    | none => false
    | some last =>
      isAlnumAscii c && isAlnumAscii last &&
        rest.dropLast.all (fun d => isAlnumAscii d || d = '-') &&
        rest.dropLast.length ≤ 61

/-- Message thrown by validateIdentityName in both library files. -/
def invalidNameMsg : String :=
  "Invalid identity name. Name must:\n- Start with a letter or number\n- End with a letter or number\n- Contain only letters, numbers, and hyphens\n- Be between 2 and 63 characters long"

/-- Embeds validateIdentityName (dashLibrary.js lines 6-17, identical in
part_003 lines 17-28): throws the four-rule message unless the regex
matches, and returns true otherwise. -/
def validateIdentityName (name : String) : Except String Bool :=
  if !identityNameRegexTest name then Except.error invalidNameMsg else Except.ok true

/-- Identity-name rule as the specification words it: total length 2 to 63,
alphanumeric at both ends, interior characters alphanumeric or hyphen.
Written from the words of the spec, to be compared with the code regex. -/
def SpecIdentityName (s : String) : Prop :=
  2 ≤ s.data.length ∧ s.data.length ≤ 63 ∧
  (∀ c, s.data.head? = some c → isAlnumAscii c = true) ∧
  (∀ c, s.data.getLast? = some c → isAlnumAscii c = true) ∧
  (∀ c ∈ (s.data.drop 1).dropLast, isAlnumAscii c = true ∨ c = '-')

example : identityNameRegexTest "ab" = true := by decide
example : identityNameRegexTest "a" = false := by decide
example : identityNameRegexTest "a-b-c" = true := by decide
example : identityNameRegexTest "-abc" = false := by decide
example : identityNameRegexTest "abc-" = false := by decide
example : identityNameRegexTest "" = false := by decide
example : jsParseInt "abc" = JsNum.nan := by decide
example : jsParseInt "50000" = JsNum.int 50000 := by decide
example : jsParseInt "  -42xyz" = JsNum.int (-42) := by decide
example : jsParseInt "0x1A" = JsNum.int 26 := by decide

/-- Tag of one provider request issued by the start-height lookup: the two
JSON-RPC calls of the primary provider and the two REST calls of the
fallback Insight provider, transaction-specific calls carrying the
transaction id they ask for. -/
inductive ProviderCall where
  | rpcTxids : ProviderCall
  | rpcTx : String → ProviderCall
  | insightAddr : ProviderCall
  | insightTx : String → ProviderCall
deriving DecidableEq, Repr

/-- Body of a getaddresstxids response: the HTTP ok flag and the result
field, where `none` models a missing or non-array result. -/
structure TxidsResponse where
  ok : Bool
  result : Option (List String)
deriving DecidableEq, Repr

/-- Height field of a getrawtransaction result object; `none` models a
missing height field. -/
structure TxRecord where
  height : Option Int
deriving DecidableEq, Repr

/-- Body of a getrawtransaction response. -/
structure TxResponse where
  ok : Bool
  result : Option TxRecord
deriving DecidableEq, Repr

/-- Body of an Insight addr response: `none` on the transactions field
models a missing or non-array value. -/
structure AddrResponse where
  ok : Bool
  transactions : Option (List String)
deriving DecidableEq, Repr

/-- Body of an Insight tx response: `body = none` models a falsy JSON
body, and a missing blockheight field is `none` inside the body. -/
structure InsightTxBody where
  blockheight : Option Int
deriving DecidableEq, Repr

/-- Response of an Insight tx request. -/
structure InsightTxResponse where
  ok : Bool
  body : Option InsightTxBody
deriving DecidableEq, Repr

/-- World of provider responses seen by one start-height lookup. An outer
`none` models a fetch or json call that throws (network or parse
failure); the transaction-specific responses are functions of the
requested transaction id. The request URLs themselves only carry the
address and network, which the embedding abstracts away. -/
structure FetchWorld where
  rpcTxids : Option TxidsResponse
  rpcTx : String → Option TxResponse
  insightAddr : Option AddrResponse
  insightTx : String → Option InsightTxResponse

namespace DashLibrary

/-- Embeds the Insight fallback path of findFirstTransactionBlock
(dashLibrary.js lines 74-102): any thrown error lands in the outer catch
of lines 104-107, which returns null, so every failure is `none` here.
This version never consults the ok flag of the tx response (line 92-93
parses it without a status check) and treats a zero blockheight as falsy. -/
def insightFallback (w : FetchWorld) (calls : List ProviderCall) :
    Option Int × List ProviderCall :=
  let calls := calls ++ [ProviderCall.insightAddr]
  match w.insightAddr with
  | none => (none, calls)
  | some resp =>
    if resp.ok = false then (none, calls)
    else
      match resp.transactions with
      | none => (none, calls)
      | some txs =>
        if txs.length = 0 then (none, calls)
        else
          match txs.reverse with
          | [] => (none, calls)
          | t0 :: _ =>
            let calls := calls ++ [ProviderCall.insightTx t0]
            match w.insightTx t0 with
            | none => (none, calls)
            | some txResp =>
              match txResp.body with
              | none => (none, calls)
              | some b =>
                match b.blockheight with
                | none => (none, calls)
                | some h => if h = 0 then (none, calls) else (some h, calls)

/-- Embeds findFirstTransactionBlock (dashLibrary.js lines 19-108): the
primary RPC path returns the height of the first transaction when the
txids result is non-empty and the record carries a truthy height, and
every other outcome falls through to the Insight fallback; the ok flag
of the txids response is never consulted in this version. The returned
list records the provider calls in order. -/
def findFirstTransactionBlock (address : Option String) (network : String)
    (w : FetchWorld) : Option Int × List ProviderCall :=
  let calls := [ProviderCall.rpcTxids]
  match w.rpcTxids with
  | none => insightFallback w calls
  | some txidsData =>
    match txidsData.result with
    | some (firstTxId :: _) =>
      let calls := calls ++ [ProviderCall.rpcTx firstTxId]
      match w.rpcTx firstTxId with
      | none => insightFallback w calls
      | some txData =>
        match txData.result with
        | some rec =>
          match rec.height with
          | some h => if h = 0 then insightFallback w calls else (some h, calls)
          | none => insightFallback w calls
        | none => insightFallback w calls
    | _ => insightFallback w calls

/-- Embeds findStartHeight (dashLibrary.js lines 137-143): the network
defaults to mainnet, the lookup result is collapsed with the JavaScript
expression blockHeight || 1, and no address presence check is made. -/
def findStartHeight (address : Option String) (networkArg : Option String)
    (w : FetchWorld) : Int × List ProviderCall :=
  let network := jsOrDefault networkArg "mainnet"
  match findFirstTransactionBlock address network w with
  | (some h, calls) => (if h = 0 then 1 else h, calls)
  | (none, calls) => (1, calls)

end DashLibrary

namespace DashPlatform

/-- Environment variables consulted by the part_003 library functions. -/
structure Env where
  identityId : Option String
  contractId : Option String
  documentId : Option String
  address : Option String
  network : Option String
deriving DecidableEq, Repr

/-- Parsed JSON scalar used for document field values. -/
inductive JsVal where
  | str : String → JsVal
  | num : Int → JsVal
  | boolean : Bool → JsVal
  | null : JsVal
deriving DecidableEq, Repr

/-- Command arguments consulted by the part_003 library functions. The
documentData option is a JSON string in the source; it is modelled here
already parsed into its field list, with `none` for an absent or empty
option. -/
structure Args where
  identityId : Option String
  contractId : Option String
  documentId : Option String
  address : Option String
  network : Option String
  topupAmount : Option String
  action : Option String
  documentType : Option String
  documentData : Option (List (String × JsVal))
deriving DecidableEq, Repr

/-- Embeds getAddress (part_003 line 9): argument value or ADDRESS
environment variable. -/
def getAddress (args : Args) (env : Env) : Option String :=
  jsOrOpt args.address env.address

/-- Embeds getIdentityId (part_003 line 6). -/
def getIdentityId (args : Args) (env : Env) : Option String :=
  jsOrOpt args.identityId env.identityId

/-- Embeds getContractId (part_003 line 7). -/
def getContractId (args : Args) (env : Env) : Option String :=
  jsOrOpt args.contractId env.contractId

/-- Embeds getDocumentId (part_003 line 8). -/
def getDocumentId (args : Args) (env : Env) : Option String :=
  jsOrOpt args.documentId env.documentId

/-- Message thrown by the part_003 findStartHeight when the address is
missing, before any provider request. -/
def addrRequiredMsg : String := "Address is required for this operation"

/-- Message built inside the Insight catch of the part_003 findStartHeight
when the fallback also fails. -/
def noTxMsg : String :=
  "No transactions found for this address. Please verify the address is correct and has transaction history."

/-- Message the part_003 findStartHeight finally throws on total provider
failure: the outer catch of lines 263-266 wraps the inner message. -/
def totalFailureMsg : String :=
  "Could not find transaction history: " ++ noTxMsg

/-- Embeds the Insight fallback path of the part_003 findStartHeight
(lines 208-261): every failed step throws, the inner catch of lines
256-261 replaces the error with the no-transactions message, and the
outer catch of lines 263-266 wraps it into the total-failure message.
This version does check the ok flag of the tx response and rejects
heights that are not strictly positive. -/
def insightFallback (w : FetchWorld) (calls : List ProviderCall) :
    Except String Int × List ProviderCall :=
  let calls := calls ++ [ProviderCall.insightAddr]
  match w.insightAddr with
  | none => (Except.error totalFailureMsg, calls)
  | some resp =>
    if resp.ok = false then (Except.error totalFailureMsg, calls)
    else
      match resp.transactions with
      | none => (Except.error totalFailureMsg, calls)
      | some txs =>
        if txs.length = 0 then (Except.error totalFailureMsg, calls)
        else
          match txs.reverse with
          | [] => (Except.error totalFailureMsg, calls)
          | t0 :: _ =>
            let calls := calls ++ [ProviderCall.insightTx t0]
            match w.insightTx t0 with
            | none => (Except.error totalFailureMsg, calls)
            | some txResp =>
              if txResp.ok = false then (Except.error totalFailureMsg, calls)
              else
                match txResp.body with
                | none => (Except.error totalFailureMsg, calls)
                | some b =>
                  match b.blockheight with
                  | none => (Except.error totalFailureMsg, calls)
                  | some h =>
                    if h ≤ 0 then (Except.error totalFailureMsg, calls)
                    else (Except.ok h, calls)

/-- Embeds findStartHeight (part_003 lines 108-267): a missing address
throws before any provider request; the primary RPC path checks the ok
status, requires a non-empty txids array and a strictly positive height,
and any of its failures lands in the catch of line 201 which runs the
Insight fallback. On total failure the wrapped error propagates to the
caller; this version never substitutes a sentinel height. -/
def findStartHeight (args : Args) (env : Env) (w : FetchWorld) :
    Except String Int × List ProviderCall :=
  let address := getAddress args env
  if strFalsy address then (Except.error addrRequiredMsg, [])
  else
    let network := jsOrDefault (jsOrOpt args.network env.network) "mainnet"
    let calls := [ProviderCall.rpcTxids]
    match w.rpcTxids with
    | none => insightFallback w calls
    | some txidsData =>
      if txidsData.ok = false then insightFallback w calls
      else
        match txidsData.result with
        | some (firstTxId :: _) =>
          let calls := calls ++ [ProviderCall.rpcTx firstTxId]
          match w.rpcTx firstTxId with
          | none => insightFallback w calls
          | some txData =>
            if txData.ok = false then insightFallback w calls
            else
              match txData.result with
              | some rec =>
                match rec.height with
                | some h => if h ≤ 0 then insightFallback w calls else (Except.ok h, calls)
                | none => insightFallback w calls
              | none => insightFallback w calls
        | _ => insightFallback w calls

end DashPlatform

namespace DashPlatform

/-- Index definition as validateIndices reads it: `name` with the usual
string truthiness, `properties` where `none` models a missing or
non-array value and any array passes, and `unique` where `none` models a
value that is not strictly boolean. -/
structure IndexDef where
  name : Option String
  properties : Option (List (String × String))
  unique : Option Bool
deriving DecidableEq, Repr

/-- Input shape of validateIndices: a single index object or an array. -/
inductive IndicesInput where
  | single : IndexDef → IndicesInput
  | array : List IndexDef → IndicesInput
deriving DecidableEq, Repr

/-- Per-element checks of validateIndices (part_003 lines 38-48), in
source order: name, properties array, strictly boolean unique. -/
def checkIndex (i : IndexDef) : Except String Unit :=
  if strFalsy i.name then Except.error "Index must have a name"
  else
    match i.properties with
    | none => Except.error "Index must have properties array"
    | some _ =>
      match i.unique with
      | none => Except.error "Index must specify unique as boolean"
      | some _ => Except.ok ()

/-- Runs checkIndex over the elements in order, stopping at the first
thrown error, as the forEach of part_003 lines 38-48 does. -/
def checkIndices : List IndexDef → Except String Unit
  | [] => Except.ok ()
  | i :: rest =>
    match checkIndex i with
    | Except.error e => Except.error e
    | Except.ok _ => checkIndices rest

/-- Embeds validateIndices (part_003 lines 32-50): a single object is
wrapped into a one-element array, every element is checked, and the
normalized array itself is returned. -/
def validateIndices : IndicesInput → Except String (List IndexDef)
  | IndicesInput.single i =>
    match checkIndices [i] with
    | Except.error e => Except.error e
    | Except.ok _ => Except.ok [i]
  | IndicesInput.array is =>
    match checkIndices is with
    | Except.error e => Except.error e
    | Except.ok _ => Except.ok is

/-- Property definition inside a document schema: `type` with string
truthiness and `position` where `none` models a value whose typeof is
not number. -/
structure UProp where
  type : Option String
  position : Option Int
deriving DecidableEq, Repr

/-- Document-type schema as validateContractDefinition reads it: `type`
compared by strict equality against the string object, `properties`
where `none` models a missing or non-object value, and
`additionalProperties` where `none` models a value that is not strictly
boolean. Fields the validator never reads are omitted. -/
structure DocSchema where
  type : Option String
  properties : Option (List (String × UProp))
  additionalProperties : Option Bool
deriving DecidableEq, Repr

/-- Per-property checks of validateContractDefinition (part_003 lines
77-89), in source order: truthy type, then numeric position. -/
def checkDocProps (docType : String) : List (String × UProp) → Except String Unit
  | [] => Except.ok ()
  | (propName, p) :: rest =>
    if strFalsy p.type then
      Except.error ("Property \x27" ++ propName ++ "\x27 in \x27" ++ docType ++ "\x27 must have type")
    else
      match p.position with
      | none =>
        Except.error ("Property \x27" ++ propName ++ "\x27 in \x27" ++ docType ++ "\x27 must have numeric position")
      | some _ => checkDocProps docType rest

/-- Per-document-type checks of validateContractDefinition (part_003
lines 65-97): type must equal object, properties must be present, every
property is checked, and additionalProperties must be strictly boolean. -/
def checkDocType (docType : String) (s : DocSchema) : Except String Unit :=
  if s.type = some "object" then
    match s.properties with
    | none => Except.error ("Document type \x27" ++ docType ++ "\x27 must define properties")
    | some props =>
      match checkDocProps docType props with
      | Except.error e => Except.error e
      | Except.ok _ =>
        match s.additionalProperties with
        | none =>
          Except.error ("Document type \x27" ++ docType ++ "\x27 must specify additionalProperties as boolean")
        | some _ => Except.ok ()
  else Except.error ("Document type \x27" ++ docType ++ "\x27 must have type:\x27object\x27")

/-- Runs checkDocType over the document types in order. -/
def checkDocTypes : List (String × DocSchema) → Except String Unit
  | [] => Except.ok ()
  | (docType, s) :: rest =>
    match checkDocType docType s with
    | Except.error e => Except.error e
    | Except.ok _ => checkDocTypes rest

/-- Embeds validateContractDefinition (part_003 lines 54-100) on an
already-parsed definition object: the definition must carry at least one
document type, each document type is checked in order, and true is
returned on success. -/
def validateContractDefinition (contractDef : List (String × DocSchema)) :
    Except String Bool :=
  if contractDef.length = 0 then
    Except.error "Contract must define at least one document type"
  else
    match checkDocTypes contractDef with
    | Except.error e => Except.error e
    | Except.ok _ => Except.ok true

/-- String interpolation of a position value as a JavaScript template
renders it: numbers print as themselves, a missing or non-number value
prints as undefined. -/
def posToString : Option Int → String
  | some n => toString n
  | none => "undefined"

/-- Position values of the existing properties, as the Set built at
part_003 lines 505-507 holds them. -/
def existingPositions (props : List (String × UProp)) : List (Option Int) :=
  props.map fun kv => kv.2.position

/-- Message thrown on a position collision during a contract update. -/
def positionUsedMsg (p : Option Int) : String :=
  "Position " ++ posToString p ++ " is already used by another property"

/-- Per-new-property checks of updateContract (part_003 lines 509-523),
in source order: position collision against the existing positions,
numeric position, truthy type. -/
def checkNewProps (existingPos : List (Option Int)) :
    List (String × UProp) → Except String Unit
  | [] => Except.ok ()
  | (propName, p) :: rest =>
    if existingPos.contains p.position then Except.error (positionUsedMsg p.position)
    else
      match p.position with
      | none => Except.error ("Property \x27" ++ propName ++ "\x27 must have a numeric position")
      | some _ =>
        if strFalsy p.type then Except.error ("Property \x27" ++ propName ++ "\x27 must have a type")
        else checkNewProps existingPos rest

/-- Object spread of two property maps as at part_003 lines 526-529:
existing keys keep their place and are overwritten by a new entry of the
same name, and new keys are appended in payload order. The payload is an
already-parsed JSON object, so its keys are distinct. -/
def spreadMerge (a b : List (String × UProp)) : List (String × UProp) :=
  (a.map fun kv =>
    match b.find? (fun bv => bv.1 == kv.1) with
    | some bv => (kv.1, bv.2)
    | none => kv)
  ++ b.filter fun bv => !(a.any fun av => av.1 == bv.1)

/-- Embeds the new-properties block of updateContract (part_003 lines
501-530): every payload entry is validated against the positions already
present in the schema copy, and only when all entries pass are the new
properties merged over the existing ones. -/
def updateProperties (existing newProps : List (String × UProp)) :
    Except String (List (String × UProp)) :=
  match checkNewProps (existingPositions existing) newProps with
  | Except.error e => Except.error e
  | Except.ok _ => Except.ok (spreadMerge existing newProps)

/-- Minimum topup amount in duffs (part_003 line 12). -/
def minimumTopupAmount : Int := 50000

/-- Message thrown when the topup amount option is missing. -/
def topupAmountRequiredMsg : String :=
  "Topup amount is required. Minimum 50000 duffs = 50000000 credits"

/-- Message thrown when the parsed topup amount is below the minimum. -/
def topupAmountMinimumMsg : String :=
  "Topup amount must be at least 50000 duffs = 50000000 credits"

/-- Embeds the validation prefix of topupIdentity (part_003 lines
341-367): the checks that run before any network call, returning the
parsed amount later handed to the topUp call. The parse uses the
JavaScript parseInt, and the minimum comparison is false on NaN. -/
def topupIdentityGuard (args : Args) (env : Env) : Except String JsNum :=
  if strFalsy (getIdentityId args env) then Except.error "Identity ID is required."
  else if strFalsy (getAddress args env) then Except.error "Address is required."
  else if strFalsy args.topupAmount then Except.error topupAmountRequiredMsg
  else if jsLtInt (jsParseInt (args.topupAmount.getD "")) minimumTopupAmount then
    Except.error topupAmountMinimumMsg
  else Except.ok (jsParseInt (args.topupAmount.getD ""))

/-- Document instance handled by submitDocument: an id and its fields. -/
structure Document where
  docId : String
  fields : List (String × JsVal)
deriving DecidableEq, Repr

/-- Field assignment as the JavaScript set call performs it: an existing
key is overwritten in place, a new key is appended. -/
def setField : List (String × JsVal) → String → JsVal → List (String × JsVal)
  | [], k, v => [(k, v)]
  | (k0, v0) :: rest, k, v =>
    if k0 == k then (k, v) :: rest else (k0, v0) :: setField rest k v

/-- Application of a parsed document-data object to an existing document,
one set call per entry, as at part_003 lines 656-658. -/
def Document.applyData (d : Document) (docData : List (String × JsVal)) : Document :=
  docData.foldl (fun acc kv => { acc with fields := setField acc.fields kv.1 kv.2 }) d

/-- Document batch handed to the broadcast call (part_003 lines 663-667). -/
structure Batch where
  create : List Document
  replace : List Document
  delete : List Document
deriving DecidableEq, Repr

/-- World of SDK document operations: fetching a document by id models
the documents get call with an id equality query, and createDoc models
the documents create call on parsed data. -/
structure DocWorld where
  getDocument : String → Option Document
  createDoc : List (String × JsVal) → Document

/-- Batch literal of part_003 lines 663-667: the document lands in the
sequence whose name equals the action string, every other sequence is
empty, and an action equal to none of the three names leaves all three
sequences empty. -/
def selectBatch (action : Option String) (document : Document) : Batch :=
  { create := if action == some "create" then [document] else []
    replace := if action == some "replace" then [document] else []
    delete := if action == some "delete" then [document] else [] }

/-- Embeds the document acquisition of submitDocument (part_003 lines
623-661), with the SDK abstracted into the document world: a create
action requires document data and builds a fresh document, any other
action fetches the existing document by id, and a replace action
additionally requires document data and applies it field by field. -/
def submitDocumentFetch (args : Args) (env : Env) (w : DocWorld) : Except String Document :=
  if args.action == some "create" then
    match args.documentData with
    | none => Except.error "document-data is required for create action"
    | some docData => Except.ok (w.createDoc docData)
  else if strFalsy (getDocumentId args env) then Except.error "Document ID is required."
  else
    match w.getDocument ((getDocumentId args env).getD "") with
    | none => Except.error ("Document not found with ID: " ++ (getDocumentId args env).getD "")
    | some existingDocument =>
      if args.action == some "replace" then
        match args.documentData with
        | none => Except.error "document-data is required for replace action"
        | some docData => Except.ok (existingDocument.applyData docData)
      else Except.ok existingDocument

/-- Embeds submitDocument (part_003 lines 608-674), with the SDK
broadcast abstracted away: the identifier checks of lines 612-617, the
document acquisition, then the batch literal handed to broadcast; the
result carries the batch and the document. The identity fetch of line
622 is assumed to succeed. -/
def submitDocument (args : Args) (env : Env) (w : DocWorld) :
    Except String (Batch × Document) :=
  if strFalsy (getIdentityId args env) then Except.error "Identity ID is required."
  else if strFalsy (getContractId args env) then Except.error "Contract ID is required."
  else
    match submitDocumentFetch args env w with
    | Except.error e => Except.error e
    | Except.ok document => Except.ok (selectBatch args.action document, document)

end DashPlatform

namespace DashCLI

/-- Embeds the environment defaulting of dashCLI.js lines 110-122: each
identifier option is filled from its environment variable when the
option is falsy and the environment value truthy. -/
def applyEnvDefaults (o : DashPlatform.Args) (env : DashPlatform.Env) : DashPlatform.Args :=
  { o with
    address := if strFalsy o.address && !strFalsy env.address then env.address else o.address
    identityId := if strFalsy o.identityId && !strFalsy env.identityId then env.identityId else o.identityId
    contractId := if strFalsy o.contractId && !strFalsy env.contractId then env.contractId else o.contractId
    documentId := if strFalsy o.documentId && !strFalsy env.documentId then env.documentId else o.documentId }

/-- Embeds the submitDocument option checks of dashCLI.js lines 197-212,
run after the environment defaulting: identity id, contract id with
document type, a truthy action, and document data whenever the action is
not delete. -/
def submitDocumentChecks (o : DashPlatform.Args) : Except String Unit :=
  if strFalsy o.identityId then
    Except.error "Identity ID is required for submitting documents"
  else if strFalsy o.contractId || strFalsy o.documentType then
    Except.error "Contract ID and document type are required"
  else if strFalsy o.action then
    Except.error "Action (create/replace/delete) is required"
  else if !(o.action == some "delete") && o.documentData.isNone then
    Except.error "Document data is required for create/replace actions"
  else Except.ok ()

/-- Embeds the CLI handling of the submitDocument command (dashCLI.js
lines 110-122 and 197-214): environment defaulting, the option checks,
then the library call of part_003. -/
def submitDocumentCommand (o : DashPlatform.Args) (env : DashPlatform.Env)
    (w : DashPlatform.DocWorld) : Except String (DashPlatform.Batch × DashPlatform.Document) :=
  match submitDocumentChecks (applyEnvDefaults o env) with
  | Except.error e => Except.error e
  | Except.ok _ => DashPlatform.submitDocument (applyEnvDefaults o env) env w

end DashCLI

namespace DashLibrary

/-- Embeds the validation prefix of the dashLibrary.js topupIdentity
(lines 180-188): this version checks only the amount, with the same
required and minimum messages, and parses with the JavaScript parseInt
whose NaN makes the minimum comparison false. -/
def topupIdentityGuard (topupAmount : Option String) : Except String JsNum :=
  if strFalsy topupAmount then Except.error DashPlatform.topupAmountRequiredMsg
  else if jsLtInt (jsParseInt (topupAmount.getD "")) DashPlatform.minimumTopupAmount then
    Except.error DashPlatform.topupAmountMinimumMsg
  else Except.ok (jsParseInt (topupAmount.getD ""))

end DashLibrary

namespace SchemaHeap

/-- Scalar JSON value inside a schema tree. -/
inductive JLit where
  | nullL : JLit
  | boolL : Bool → JLit
  | numL : Int → JLit
  | strL : String → JLit
deriving DecidableEq, Repr

mutual
/-- JSON value of a document schema with the heap identity of every
object and array node recorded, so that aliasing between two views of a
schema is visible as a shared node address. -/
inductive ATree where
  | leaf : JLit → ATree
  | obj : Nat → AFields → ATree
  | arr : Nat → AElems → ATree
/-- Field list of an object node. -/
inductive AFields where
  | fnil : AFields
  | fcons : String → ATree → AFields → AFields
/-- Element list of an array node. -/
inductive AElems where
  | enil : AElems
  | econs : ATree → AElems → AElems
end

mutual
/-- Addresses of all object and array nodes of a tree. -/
def addrsT : ATree → List Nat
  | ATree.leaf _ => []
  | ATree.obj a fs => a :: addrsF fs
  | ATree.arr a es => a :: addrsE es
/-- Addresses of the nodes of a field list. -/
def addrsF : AFields → List Nat
  | AFields.fnil => []
  | AFields.fcons _ t rest => addrsT t ++ addrsF rest
/-- Addresses of the nodes of an element list. -/
def addrsE : AElems → List Nat
  | AElems.enil => []
  | AElems.econs t rest => addrsT t ++ addrsE rest
end

mutual
/-- Tree with every node address erased: the pure JSON value, so two
trees are deep-equal exactly when their stripped forms are equal. -/
def stripT : ATree → ATree
  | ATree.leaf v => ATree.leaf v
  | ATree.obj _ fs => ATree.obj 0 (stripF fs)
  | ATree.arr _ es => ATree.arr 0 (stripE es)
/-- Strips a field list. -/
def stripF : AFields → AFields
  | AFields.fnil => AFields.fnil
  | AFields.fcons k t rest => AFields.fcons k (stripT t) (stripF rest)
/-- Strips an element list. -/
def stripE : AElems → AElems
  | AElems.enil => AElems.enil
  | AElems.econs t rest => AElems.econs (stripT t) (stripE rest)
end

mutual
/-- Deep copy through JSON stringify and parse: the value is preserved
and every object and array node receives a fresh address, allocated
sequentially from the given counter, since JSON.parse builds only new
objects. Returns the copy and the next free address. -/
def copyT : ATree → Nat → ATree × Nat
  | ATree.leaf v, base => (ATree.leaf v, base)
  | ATree.obj _ fs, base =>
    let r := copyF fs base
    (ATree.obj r.2 r.1, r.2 + 1)
  | ATree.arr _ es, base =>
    let r := copyE es base
    (ATree.arr r.2 r.1, r.2 + 1)
/-- Deep copy of a field list. -/
def copyF : AFields → Nat → AFields × Nat
  | AFields.fnil, base => (AFields.fnil, base)
  | AFields.fcons k t rest, base =>
    let r1 := copyT t base
    let r2 := copyF rest r1.2
    (AFields.fcons k r1.1 r2.1, r2.2)
/-- Deep copy of an element list. -/
def copyE : AElems → Nat → AElems × Nat
  | AElems.enil, base => (AElems.enil, base)
  | AElems.econs t rest, base =>
    let r1 := copyT t base
    let r2 := copyE rest r1.2
    (AElems.econs r1.1 r2.1, r2.2)
end

mutual
/-- In-place mutation of the heap node with the given address: wherever
the node with that identity occurs, its field list or element list is
rewritten; every other node is untouched. A JavaScript mutation of an
aliased object is visible through every tree sharing that address. -/
def mutateT (a : Nat) (gf : AFields → AFields) (ge : AElems → AElems) : ATree → ATree
  | ATree.leaf v => ATree.leaf v
  | ATree.obj a0 fs =>
    if a0 = a then ATree.obj a0 (gf fs) else ATree.obj a0 (mutateF a gf ge fs)
  | ATree.arr a0 es =>
    if a0 = a then ATree.arr a0 (ge es) else ATree.arr a0 (mutateE a gf ge es)
/-- Mutation inside a field list. -/
def mutateF (a : Nat) (gf : AFields → AFields) (ge : AElems → AElems) : AFields → AFields
  | AFields.fnil => AFields.fnil
  | AFields.fcons k t rest => AFields.fcons k (mutateT a gf ge t) (mutateF a gf ge rest)
/-- Mutation inside an element list. -/
def mutateE (a : Nat) (gf : AFields → AFields) (ge : AElems → AElems) : AElems → AElems
  | AElems.enil => AElems.enil
  | AElems.econs t rest => AElems.econs (mutateT a gf ge t) (mutateE a gf ge rest)
end

mutual
theorem mutate_not_memT (a : Nat) (gf : AFields → AFields) (ge : AElems → AElems) :
    ∀ t : ATree, a ∉ addrsT t → mutateT a gf ge t = t
  | ATree.leaf v, _ => by simp [mutateT]
  | ATree.obj a0 fs, h => by
    rw [addrsT] at h
    simp only [List.mem_cons, not_or] at h
    rw [mutateT]
    rw [if_neg (fun e => h.1 e.symm), mutate_not_memF a gf ge fs h.2]
  | ATree.arr a0 es, h => by
    rw [addrsT] at h
    simp only [List.mem_cons, not_or] at h
    rw [mutateT]
    rw [if_neg (fun e => h.1 e.symm), mutate_not_memE a gf ge es h.2]

theorem mutate_not_memF (a : Nat) (gf : AFields → AFields) (ge : AElems → AElems) :
    ∀ fs : AFields, a ∉ addrsF fs → mutateF a gf ge fs = fs
  | AFields.fnil, _ => by simp [mutateF]
  | AFields.fcons k t rest, h => by
    rw [addrsF] at h
    simp only [List.mem_append, not_or] at h
    rw [mutateF]
    rw [mutate_not_memT a gf ge t h.1, mutate_not_memF a gf ge rest h.2]

theorem mutate_not_memE (a : Nat) (gf : AFields → AFields) (ge : AElems → AElems) :
    ∀ es : AElems, a ∉ addrsE es → mutateE a gf ge es = es
  | AElems.enil, _ => by simp [mutateE]
  | AElems.econs t rest, h => by
    rw [addrsE] at h
    simp only [List.mem_append, not_or] at h
    rw [mutateE]
    rw [mutate_not_memT a gf ge t h.1, mutate_not_memE a gf ge rest h.2]
end

mutual
theorem copyT_bounds : ∀ (t : ATree) (base : Nat),
    base ≤ (copyT t base).2 ∧
      ∀ x ∈ addrsT (copyT t base).1, base ≤ x ∧ x < (copyT t base).2
  | ATree.leaf v, base => by simp [copyT, addrsT]
  | ATree.obj a fs, base => by
    have ih := copyF_bounds fs base
    simp only [copyT, addrsT, List.mem_cons]
    constructor
    · omega
    · intro x hx
      rcases hx with hx | hx
      · omega
      · have := ih.2 x hx
        omega
  | ATree.arr a es, base => by
    have ih := copyE_bounds es base
    simp only [copyT, addrsT, List.mem_cons]
    constructor
    · omega
    · intro x hx
      rcases hx with hx | hx
      · omega
      · have := ih.2 x hx
        omega

theorem copyF_bounds : ∀ (fs : AFields) (base : Nat),
    base ≤ (copyF fs base).2 ∧
      ∀ x ∈ addrsF (copyF fs base).1, base ≤ x ∧ x < (copyF fs base).2
  | AFields.fnil, base => by simp [copyF, addrsF]
  | AFields.fcons k t rest, base => by
    have ih1 := copyT_bounds t base
    have ih2 := copyF_bounds rest (copyT t base).2
    simp only [copyF, addrsF, List.mem_append]
    constructor
    · omega
    · intro x hx
      rcases hx with hx | hx
      · have := ih1.2 x hx
        omega
      · have := ih2.2 x hx
        omega

theorem copyE_bounds : ∀ (es : AElems) (base : Nat),
    base ≤ (copyE es base).2 ∧
      ∀ x ∈ addrsE (copyE es base).1, base ≤ x ∧ x < (copyE es base).2
  | AElems.enil, base => by simp [copyE, addrsE]
  | AElems.econs t rest, base => by
    have ih1 := copyT_bounds t base
    have ih2 := copyE_bounds rest (copyT t base).2
    simp only [copyE, addrsE, List.mem_append]
    constructor
    · omega
    · intro x hx
      rcases hx with hx | hx
      · have := ih1.2 x hx
        omega
      · have := ih2.2 x hx
        omega
end

mutual
theorem strip_copyT : ∀ (t : ATree) (base : Nat), stripT (copyT t base).1 = stripT t
  | ATree.leaf v, base => rfl
  | ATree.obj a fs, base => by
    simp only [copyT, stripT]
    rw [strip_copyF fs base]
  | ATree.arr a es, base => by
    simp only [copyT, stripT]
    rw [strip_copyE es base]

theorem strip_copyF : ∀ (fs : AFields) (base : Nat), stripF (copyF fs base).1 = stripF fs
  | AFields.fnil, base => rfl
  | AFields.fcons k t rest, base => by
    simp only [copyF, stripF]
    rw [strip_copyT t base, strip_copyF rest (copyT t base).2]

theorem strip_copyE : ∀ (es : AElems) (base : Nat), stripE (copyE es base).1 = stripE es
  | AElems.enil, base => rfl
  | AElems.econs t rest, base => by
    simp only [copyE, stripE]
    rw [strip_copyT t base, strip_copyE rest (copyT t base).2]
end

/-- Embeds the no-op path of updateContract (part_003 lines 470-561) when
neither the newProperties option nor the indices option is given: the
fetched document schema is deep-copied through JSON stringify and parse
at line 498, both option blocks are skipped, and the untouched copy is
installed as the new document schema at line 548. The allocation counter
stands for the JavaScript heap giving fresh objects to JSON.parse. -/
def updateContractNoOp (documentSchema : ATree) (base : Nat) : ATree × Nat :=
  copyT documentSchema base

end SchemaHeap

theorem regexTest_iff_spec (s : String) :
    identityNameRegexTest s = true ↔ SpecIdentityName s := by
  unfold identityNameRegexTest SpecIdentityName
  cases hcs : s.data with
  | nil => simp
  | cons c rest =>
    cases rest with
    | nil => simp
    | cons r rs =>
      obtain ⟨l, hl⟩ : ∃ l, (r :: rs).getLast? = some l :=
        ⟨(r :: rs).getLast (by simp), List.getLast?_eq_getLast _ _⟩
      rw [List.getLast?_cons_cons, hl]
      simp only [hl, Bool.and_eq_true, List.all_eq_true, Bool.or_eq_true, decide_eq_true_eq,
        List.length_cons, List.head?_cons, List.drop_succ_cons, List.drop_zero,
        Option.some.injEq, List.length_dropLast, forall_eq']
      constructor
      · rintro ⟨⟨⟨h1, h2⟩, h3⟩, h4⟩
        exact ⟨by omega, by omega, h1, h2, h3⟩
      · rintro ⟨h1, h2, h3, h4, h5⟩
        exact ⟨⟨⟨h3, h4⟩, h5⟩, by omega⟩

/-- C4: validateIdentityName accepts exactly the strings matching the
identity-name rule (alphanumeric at both ends, interior alphanumeric or
hyphen, total length 2 to 63), and every non-matching string fails with
the four-rule ValidationError message. -/
theorem c4_identity_name_validation (s : String) :
    (validateIdentityName s = Except.ok true ↔ SpecIdentityName s) ∧
      (validateIdentityName s = Except.ok true ∨
        validateIdentityName s = Except.error invalidNameMsg) := by
  have hiff := regexTest_iff_spec s
  cases h : identityNameRegexTest s with
  | false =>
    rw [h] at hiff
    simp only [Bool.false_eq_true, false_iff] at hiff
    exact ⟨by simp [validateIdentityName, h, hiff],
      Or.inr (by simp [validateIdentityName, h])⟩
  | true =>
    rw [h] at hiff
    simp only [true_iff] at hiff
    exact ⟨by simp [validateIdentityName, h, hiff],
      Or.inl (by simp [validateIdentityName, h])⟩

namespace DashPlatform

/-- Conditions under which one index definition passes the three checks
of validateIndices: truthy name, present properties array, strictly
boolean unique. -/
def indexOk (i : IndexDef) : Prop :=
  strFalsy i.name = false ∧ i.properties.isSome ∧ i.unique.isSome

instance (i : IndexDef) : Decidable (indexOk i) := by
  unfold indexOk
  infer_instance

theorem checkIndex_ok (i : IndexDef) : checkIndex i = Except.ok () ↔ indexOk i := by
  unfold checkIndex indexOk
  cases hn : strFalsy i.name with
  | true => simp [hn]
  | false =>
    cases hp : i.properties with
    | none => simp [hn, hp]
    | some ps =>
      cases hu : i.unique with
      | none => simp [hn, hp, hu]
      | some u => simp [hn, hp, hu]

theorem checkIndices_ok (is : List IndexDef) :
    checkIndices is = Except.ok () ↔ ∀ i ∈ is, indexOk i := by
  induction is with
  | nil => simp [checkIndices]
  | cons i rest ih =>
    rw [checkIndices]
    cases hc : checkIndex i with
    | error e =>
      simp only [hc]
      constructor
      · intro h; cases h
      · intro h
        have h2 := (checkIndex_ok i).mpr (h i (by simp))
        rw [hc] at h2; cases h2
    | ok u =>
      cases u
      have hi : indexOk i := (checkIndex_ok i).mp hc
      simp [hc, ih, hi]

end DashPlatform

/-- C8: validateIndices treats a single index object exactly as the
one-element array holding it; an input containing an index without a
truthy name, without a properties array or without a strictly boolean
unique flag fails with a ValidationError, and an input whose indices all
pass is returned unchanged, preserving order. -/
theorem c8_validate_indices (x : DashPlatform.IndexDef) (is : List DashPlatform.IndexDef) :
    (DashPlatform.validateIndices (DashPlatform.IndicesInput.single x)
        = DashPlatform.validateIndices (DashPlatform.IndicesInput.array [x])) ∧
      ((∃ i ∈ is, ¬ DashPlatform.indexOk i) →
        ∃ e, DashPlatform.validateIndices (DashPlatform.IndicesInput.array is)
          = Except.error e) ∧
      ((∀ i ∈ is, DashPlatform.indexOk i) →
        DashPlatform.validateIndices (DashPlatform.IndicesInput.array is) = Except.ok is) := by
  refine ⟨rfl, ?_, ?_⟩
  · intro h
    simp only [DashPlatform.validateIndices]
    cases hc : DashPlatform.checkIndices is with
    | error e => exact ⟨e, rfl⟩
    | ok u =>
      cases u
      obtain ⟨i, hi, hbad⟩ := h
      exact absurd ((DashPlatform.checkIndices_ok is).mp hc i hi) hbad
  · intro h
    simp only [DashPlatform.validateIndices]
    rw [(DashPlatform.checkIndices_ok is).mpr h]

namespace DashPlatform

/-- Conditions under which one property definition passes the two checks
of validateContractDefinition: truthy type and numeric position. -/
def propOk (e : String × UProp) : Prop :=
  strFalsy e.2.type = false ∧ e.2.position.isSome

instance (e : String × UProp) : Decidable (propOk e) := by
  unfold propOk
  infer_instance

/-- Presence of a properties mapping all of whose entries pass; the
mapping itself may be empty. -/
def propsOk : Option (List (String × UProp)) → Prop
  | none => False
  | some props => ∀ e ∈ props, propOk e

/-- Conditions under which one document type passes validateContractDefinition:
type equal to object, a present properties mapping whose entries all
pass, and a strictly boolean additionalProperties. -/
def docSchemaOk (s : DocSchema) : Prop :=
  s.type = some "object" ∧ propsOk s.properties ∧ s.additionalProperties.isSome

theorem checkDocProps_ok (docType : String) (props : List (String × UProp)) :
    checkDocProps docType props = Except.ok () ↔ ∀ e ∈ props, propOk e := by
  induction props with
  | nil => simp [checkDocProps]
  | cons e rest ih =>
    obtain ⟨propName, p⟩ := e
    rw [checkDocProps]
    cases ht : strFalsy p.type with
    | true =>
      simp only [ht]
      constructor
      · intro h; cases h
      · intro h
        have h2 := (h (propName, p) (by simp)).1
        rw [ht] at h2; cases h2
    | false =>
      cases hp : p.position with
      | none =>
        simp only [ht, hp]
        constructor
        · intro h; cases h
        · intro h
          have h2 := (h (propName, p) (by simp)).2
          rw [hp] at h2; cases h2
      | some q =>
        simp only [ht, hp, Bool.false_eq_true, if_false]
        rw [ih]
        constructor
        · intro h
          intro e he
          rcases List.mem_cons.mp he with he | he
          · rw [he]; exact ⟨ht, by rw [hp]; rfl⟩
          · exact h e he
        · intro h e he
          exact h e (List.mem_cons_of_mem _ he)

theorem checkDocType_ok (docType : String) (s : DocSchema) :
    checkDocType docType s = Except.ok () ↔ docSchemaOk s := by
  obtain ⟨ty, pr, ap⟩ := s
  unfold checkDocType docSchemaOk propsOk
  dsimp only
  by_cases hobj : ty = some "object"
  · subst hobj
    rw [if_pos rfl]
    cases pr with
    | none => simp
    | some props =>
      cases hc : checkDocProps docType props with
      | error e =>
        simp only [hc]
        constructor
        · intro h; cases h
        · rintro ⟨h1, hall, h3⟩
          have h2 := (checkDocProps_ok docType props).mpr hall
          rw [hc] at h2; cases h2
      | ok u =>
        cases u
        have hall := (checkDocProps_ok docType props).mp hc
        cases ap with
        | none => simp [hc]
        | some b =>
          simp only [hc]
          simp only [Option.isSome_some, and_true, true_and]
          constructor
          · intro _
            exact hall
          · intro _
            trivial
  · rw [if_neg hobj]
    constructor
    · intro h; cases h
    · rintro ⟨h1, h2⟩
      exact absurd h1 hobj

theorem checkDocTypes_ok (defs : List (String × DocSchema)) :
    checkDocTypes defs = Except.ok () ↔ ∀ e ∈ defs, docSchemaOk e.2 := by
  induction defs with
  | nil => simp [checkDocTypes]
  | cons e rest ih =>
    obtain ⟨docType, s⟩ := e
    rw [checkDocTypes]
    cases hc : checkDocType docType s with
    | error msg =>
      simp only [hc]
      constructor
      · intro h; cases h
      · intro h
        have h2 := (checkDocType_ok docType s).mpr (h (docType, s) (by simp))
        rw [hc] at h2; cases h2
    | ok u =>
      cases u
      have hok := (checkDocType_ok docType s).mp hc
      simp [hc, ih, hok]

end DashPlatform

/-- C6 counterexample: a contract definition whose single document type
carries an empty properties mapping is accepted by
validateContractDefinition, returning true instead of failing with a
ValidationError. -/
theorem c6_empty_properties_counterexample :
    DashPlatform.validateContractDefinition
        [("note",
          { type := some "object", properties := some [],
            additionalProperties := some false })]
      = Except.ok true := rfl

/-- C6 amended: validateContractDefinition accepts a definition exactly
when it has at least one document type and every document type has type
object, a present properties mapping (possibly empty) whose entries all
carry a truthy type and a numeric position, and a strictly boolean
additionalProperties; emptiness of a properties mapping is not checked. -/
theorem c6_contract_validator_characterization (defs : List (String × DashPlatform.DocSchema)) :
    DashPlatform.validateContractDefinition defs = Except.ok true ↔
      (defs.length ≠ 0 ∧ ∀ e ∈ defs, DashPlatform.docSchemaOk e.2) := by
  unfold DashPlatform.validateContractDefinition
  cases hlen : defs.length with
  | zero => simp
  | succ n =>
    rw [if_neg (by omega : ¬ (n + 1 = 0))]
    cases hc : DashPlatform.checkDocTypes defs with
    | error e =>
      simp only [hc]
      constructor
      · intro h; cases h
      · rintro ⟨h1, h2⟩
        have h3 := (DashPlatform.checkDocTypes_ok defs).mpr h2
        rw [hc] at h3; cases h3
    | ok u =>
      cases u
      have hok := (DashPlatform.checkDocTypes_ok defs).mp hc
      simp only [hc]
      constructor
      · intro _
        exact ⟨by omega, hok⟩
      · intro _
        trivial

namespace DashPlatform

/-- Conditions under which one new property passes the three checks of
the updateContract properties block: no position collision with the
existing positions, a numeric position, and a truthy type. -/
def newPropPasses (existingPos : List (Option Int)) (e : String × UProp) : Prop :=
  existingPos.contains e.2.position = false ∧ e.2.position.isSome ∧ strFalsy e.2.type = false

instance (existingPos : List (Option Int)) (e : String × UProp) :
    Decidable (newPropPasses existingPos e) := by
  unfold newPropPasses
  infer_instance

theorem checkNewProps_ok (existingPos : List (Option Int)) (ps : List (String × UProp)) :
    checkNewProps existingPos ps = Except.ok () ↔ ∀ e ∈ ps, newPropPasses existingPos e := by
  induction ps with
  | nil => simp [checkNewProps]
  | cons e rest ih =>
    obtain ⟨nm, p⟩ := e
    rw [checkNewProps]
    cases hcol : existingPos.contains p.position with
    | true =>
      simp only [hcol]
      constructor
      · intro h; cases h
      · intro h
        have h2 := (h (nm, p) (by simp)).1
        rw [hcol] at h2; cases h2
    | false =>
      cases hpos : p.position with
      | none =>
        simp only [hcol, hpos]
        constructor
        · intro h; cases h
        · intro h
          have h2 := (h (nm, p) (by simp)).2.1
          rw [hpos] at h2; cases h2
      | some q =>
        simp only [hcol, hpos, Bool.false_eq_true, if_false]
        cases hty : strFalsy p.type with
        | true =>
          simp only [hty]
          constructor
          · intro h; cases h
          · intro h
            have h2 := (h (nm, p) (by simp)).2.2
            rw [hty] at h2; cases h2
        | false =>
          simp only [hty, Bool.false_eq_true, if_false]
          rw [ih]
          constructor
          · intro h e he
            rcases List.mem_cons.mp he with he | he
            · rw [he]
              exact ⟨hcol, by rw [hpos]; rfl, hty⟩
            · exact h e he
          · intro h e he
            exact h e (List.mem_cons_of_mem _ he)

theorem checkNewProps_skip_passing (existingPos : List (Option Int))
    (pre rest : List (String × UProp))
    (hpre : ∀ e ∈ pre, newPropPasses existingPos e) :
    checkNewProps existingPos (pre ++ rest) = checkNewProps existingPos rest := by
  induction pre with
  | nil => rfl
  | cons e pre ih =>
    obtain ⟨nm, p⟩ := e
    have hp := hpre (nm, p) (by simp)
    obtain ⟨q, hq⟩ := Option.isSome_iff_exists.mp hp.2.1
    rw [List.cons_append, checkNewProps, hp.1, hq]
    simp only [Bool.false_eq_true, if_false]
    rw [hp.2.2]
    simp only [Bool.false_eq_true, if_false]
    exact ih fun e he => hpre e (List.mem_cons_of_mem _ he)

end DashPlatform

/-- C2: whenever the existing schema holds a property at position p and
the new-properties payload holds an entry at the same position p, under
any name, the updateContract composition fails and never merges; and
when every payload entry before the colliding one passes the checks, the
failure is exactly the PositionConflictError naming p. -/
theorem c2_position_collision_rejected
    (existing pre rest : List (String × DashPlatform.UProp))
    (nm : String) (d : DashPlatform.UProp) (p : Int)
    (hex : ∃ e0 ∈ existing, e0.2.position = some p)
    (hd : d.position = some p) :
    (∃ e, DashPlatform.updateProperties existing (pre ++ (nm, d) :: rest)
        = Except.error e) ∧
      ((∀ e ∈ pre, DashPlatform.newPropPasses (DashPlatform.existingPositions existing) e) →
        DashPlatform.updateProperties existing (pre ++ (nm, d) :: rest)
          = Except.error (DashPlatform.positionUsedMsg (some p))) := by
  have hcontains : (DashPlatform.existingPositions existing).contains (some p) = true := by
    obtain ⟨e0, he0, hp0⟩ := hex
    exact List.elem_eq_true_of_mem
      (List.mem_map.mpr ⟨e0, he0, by rw [hp0]⟩)
  constructor
  · cases hc : DashPlatform.checkNewProps (DashPlatform.existingPositions existing)
        (pre ++ (nm, d) :: rest) with
    | error e =>
      exact ⟨e, by simp only [DashPlatform.updateProperties, hc]⟩
    | ok u =>
      cases u
      have hpass := (DashPlatform.checkNewProps_ok _ _).mp hc (nm, d)
        (List.mem_append_right _ (List.mem_cons_self _ _))
      have h2 := hpass.1
      rw [hd, hcontains] at h2
      cases h2
  · intro hpre
    have hskip := DashPlatform.checkNewProps_skip_passing _ pre ((nm, d) :: rest) hpre
    simp only [DashPlatform.updateProperties, hskip]
    rw [DashPlatform.checkNewProps]
    rw [hd, hcontains]
    simp

/-- C2 witness: with an existing schema holding alpha at position 0, a
payload whose first entry passes the checks and whose second entry
reuses the existing name alpha at the occupied position 0 is rejected
with the message naming position 0. -/
theorem c2_position_collision_rejected_witness :
    (∃ e, DashPlatform.updateProperties
        [("alpha", { type := some "string", position := some 0 })]
        ([("beta", { type := some "string", position := some 1 })] ++
          ("alpha", { type := some "number", position := some 0 }) :: [])
        = Except.error e) ∧
      DashPlatform.updateProperties
        [("alpha", { type := some "string", position := some 0 })]
        ([("beta", { type := some "string", position := some 1 })] ++
          ("alpha", { type := some "number", position := some 0 }) :: [])
        = Except.error (DashPlatform.positionUsedMsg (some 0)) := by
  have T := c2_position_collision_rejected
    [("alpha", { type := some "string", position := some 0 })]
    [("beta", { type := some "string", position := some 1 })] []
    "alpha" { type := some "number", position := some 0 } 0
    ⟨("alpha", { type := some "string", position := some 0 }), by simp, rfl⟩ rfl
  exact ⟨T.1, T.2 (by decide)⟩

/-- C7: with neither new properties nor new indices, updateContract
installs a schema deep-equal to the fetched document schema that shares
no object or array node with it: every node of the copy is freshly
allocated, so mutating any part of the result leaves the original schema
unchanged. -/
theorem c7_noop_update_fresh_copy (documentSchema : SchemaHeap.ATree) (base : Nat)
    (hfresh : ∀ x ∈ SchemaHeap.addrsT documentSchema, x < base) :
    SchemaHeap.stripT (SchemaHeap.updateContractNoOp documentSchema base).1
        = SchemaHeap.stripT documentSchema ∧
      ∀ x ∈ SchemaHeap.addrsT (SchemaHeap.updateContractNoOp documentSchema base).1,
        x ∉ SchemaHeap.addrsT documentSchema ∧
          ∀ gf ge, SchemaHeap.mutateT x gf ge documentSchema = documentSchema := by
  unfold SchemaHeap.updateContractNoOp
  constructor
  · exact SchemaHeap.strip_copyT documentSchema base
  · intro x hx
    have hb := (SchemaHeap.copyT_bounds documentSchema base).2 x hx
    have hnot : x ∉ SchemaHeap.addrsT documentSchema := by
      intro hmem
      have := hfresh x hmem
      omega
    exact ⟨hnot, fun gf ge => SchemaHeap.mutate_not_memT x gf ge documentSchema hnot⟩

/-- Concrete document schema used to exercise the no-op update: an
object node with a scalar field and an array-valued field. -/
def c7Schema : SchemaHeap.ATree :=
  SchemaHeap.ATree.obj 0
    (SchemaHeap.AFields.fcons "type" (SchemaHeap.ATree.leaf (SchemaHeap.JLit.strL "object"))
      (SchemaHeap.AFields.fcons "indices"
        (SchemaHeap.ATree.arr 1
          (SchemaHeap.AElems.econs (SchemaHeap.ATree.leaf (SchemaHeap.JLit.numL 3))
            SchemaHeap.AElems.enil))
        SchemaHeap.AFields.fnil))

/-- C7 witness: on a concrete schema with nodes 0 and 1 and allocation
counter 2, the no-op update yields a deep-equal copy, its node 3 is not
a node of the original, and mutating it leaves the original unchanged. -/
theorem c7_noop_update_fresh_copy_witness :
    SchemaHeap.stripT (SchemaHeap.updateContractNoOp c7Schema 2).1
        = SchemaHeap.stripT c7Schema ∧
      3 ∉ SchemaHeap.addrsT c7Schema ∧
      SchemaHeap.mutateT 3 (fun _ => SchemaHeap.AFields.fnil)
          (fun _ => SchemaHeap.AElems.enil) c7Schema = c7Schema := by
  have T := c7_noop_update_fresh_copy c7Schema 2 (by decide)
  have h3 : 3 ∈ SchemaHeap.addrsT (SchemaHeap.updateContractNoOp c7Schema 2).1 := by decide
  exact ⟨T.1, (T.2 3 h3).1,
    (T.2 3 h3).2 (fun _ => SchemaHeap.AFields.fnil) (fun _ => SchemaHeap.AElems.enil)⟩

/-- Truthy inputs pass through the JavaScript or unchanged. -/
theorem jsOrOpt_truthy (a b : Option String) (h : strFalsy a = false) :
    jsOrOpt a b = a := by
  unfold jsOrOpt
  rw [h]
  simp

namespace DashCLI

theorem applyEnvDefaults_documentType (o : DashPlatform.Args) (env : DashPlatform.Env) :
    (applyEnvDefaults o env).documentType = o.documentType := rfl

theorem applyEnvDefaults_action (o : DashPlatform.Args) (env : DashPlatform.Env) :
    (applyEnvDefaults o env).action = o.action := rfl

theorem applyEnvDefaults_documentData (o : DashPlatform.Args) (env : DashPlatform.Env) :
    (applyEnvDefaults o env).documentData = o.documentData := rfl

end DashCLI

/-- Options of a submitDocument invocation whose action string is foo,
with identity, contract, document type, document id and document data
all supplied. -/
def c5Args : DashPlatform.Args :=
  { identityId := some "id1", contractId := some "c1", documentId := some "d1",
    address := none, network := none, topupAmount := none,
    action := some "foo", documentType := some "t1",
    documentData := some [("a", DashPlatform.JsVal.str "b")] }

/-- Empty environment for the unknown-action run. -/
def c5Env : DashPlatform.Env :=
  { identityId := none, contractId := none, documentId := none,
    address := none, network := none }

/-- Stored document found by the unknown-action run. -/
def c5Doc : DashPlatform.Document :=
  { docId := "d1", fields := [("x", DashPlatform.JsVal.num 1)] }

/-- Document world holding exactly the document d1. -/
def c5World : DashPlatform.DocWorld :=
  { getDocument := fun i => if i = "d1" then some c5Doc else none
    createDoc := fun docData => { docId := "", fields := docData } }

/-- C5 counterexample: the action value foo, outside the set of the three
known actions, passes every check of the CLI layer and of
submitDocument, and the preparation succeeds with all three batch
sequences empty instead of failing with an InvalidActionError. -/
theorem c5_unknown_action_counterexample :
    DashCLI.submitDocumentCommand c5Args c5Env c5World
      = Except.ok ({ create := [], replace := [], delete := [] }, c5Doc) := rfl

/-- C5 amended: only a missing or empty action is rejected, with the CLI
message naming the three actions; on success the batch always places the
document in the sequence selected by the action with the other two
sequences empty, so exactly one sequence is non-empty for the three
known actions, while any other truthy action value yields a batch whose
three sequences are all empty. -/
theorem c5_action_dispatch (o : DashPlatform.Args) (env : DashPlatform.Env)
    (w : DashPlatform.DocWorld) :
    (strFalsy (DashCLI.applyEnvDefaults o env).identityId = false →
      strFalsy (DashCLI.applyEnvDefaults o env).contractId = false →
      strFalsy o.documentType = false →
      strFalsy o.action = true →
      DashCLI.submitDocumentCommand o env w
        = Except.error "Action (create/replace/delete) is required") ∧
      (∀ b d, DashCLI.submitDocumentCommand o env w = Except.ok (b, d) →
        b = DashPlatform.selectBatch o.action d ∧
          (o.action = some "create" →
            b = { create := [d], replace := [], delete := [] }) ∧
          (o.action = some "replace" →
            b = { create := [], replace := [d], delete := [] }) ∧
          (o.action = some "delete" →
            b = { create := [], replace := [], delete := [d] }) ∧
          (∀ a, o.action = some a → a ≠ "create" → a ≠ "replace" → a ≠ "delete" →
            b = { create := [], replace := [], delete := [] })) := by
  constructor
  · intro h1 h2 h3 h4
    unfold DashCLI.submitDocumentCommand DashCLI.submitDocumentChecks
    rw [DashCLI.applyEnvDefaults_documentType, DashCLI.applyEnvDefaults_action,
      h1, h2, h3, h4]
    rfl
  · intro b d hres
    unfold DashCLI.submitDocumentCommand at hres
    cases hchk : DashCLI.submitDocumentChecks (DashCLI.applyEnvDefaults o env) with
    | error e =>
      rw [hchk] at hres
      cases hres
    | ok u =>
      cases u
      rw [hchk] at hres
      dsimp only at hres
      unfold DashPlatform.submitDocument at hres
      rw [DashCLI.applyEnvDefaults_action] at hres
      split at hres
      · cases hres
      · split at hres
        · cases hres
        · split at hres
          · cases hres
          · rename_i doc hdoc
            rw [Except.ok.injEq, Prod.mk.injEq] at hres
            obtain ⟨hb, hd⟩ := hres
            subst hd
            refine ⟨hb.symm, ?_, ?_, ?_, ?_⟩
            · intro hact
              rw [← hb, hact]
              rfl
            · intro hact
              rw [← hb, hact]
              rfl
            · intro hact
              rw [← hb, hact]
              rfl
            · intro a hact hA hB hC
              have e1 : ((some a : Option String) == some "create") = false :=
                beq_eq_false_iff_ne.mpr (by simpa using hA)
              have e2 : ((some a : Option String) == some "replace") = false :=
                beq_eq_false_iff_ne.mpr (by simpa using hB)
              have e3 : ((some a : Option String) == some "delete") = false :=
                beq_eq_false_iff_ne.mpr (by simpa using hC)
              rw [← hb, hact]
              simp [DashPlatform.selectBatch, e1, e2, e3]

/-- C9: a submitDocument run with action delete and a resolvable document
id succeeds with the fetched document as the only entry of the delete
sequence and empty create and replace sequences, whatever documentData
holds; the fetched document is returned unchanged, so supplied document
data is never applied on delete. -/
theorem c9_delete_batch_shape (o : DashPlatform.Args) (env : DashPlatform.Env)
    (w : DashPlatform.DocWorld) (did : String) (d : DashPlatform.Document)
    (h1 : strFalsy (DashCLI.applyEnvDefaults o env).identityId = false)
    (h2 : strFalsy (DashCLI.applyEnvDefaults o env).contractId = false)
    (h3 : strFalsy o.documentType = false)
    (hact : o.action = some "delete")
    (h4 : DashPlatform.getDocumentId (DashCLI.applyEnvDefaults o env) env = some did)
    (h5 : did ≠ "")
    (h6 : w.getDocument did = some d) :
    DashCLI.submitDocumentCommand o env w
      = Except.ok ({ create := [], replace := [], delete := [d] }, d) := by
  have hchk : DashCLI.submitDocumentChecks (DashCLI.applyEnvDefaults o env) = Except.ok () := by
    unfold DashCLI.submitDocumentChecks
    rw [h1, h2, DashCLI.applyEnvDefaults_documentType, h3,
      DashCLI.applyEnvDefaults_action, hact]
    rfl
  have hgid : DashPlatform.getIdentityId (DashCLI.applyEnvDefaults o env) env
      = (DashCLI.applyEnvDefaults o env).identityId :=
    jsOrOpt_truthy _ _ h1
  have hgcd : DashPlatform.getContractId (DashCLI.applyEnvDefaults o env) env
      = (DashCLI.applyEnvDefaults o env).contractId :=
    jsOrOpt_truthy _ _ h2
  have hfetch : DashPlatform.submitDocumentFetch (DashCLI.applyEnvDefaults o env) env w
      = Except.ok d := by
    unfold DashPlatform.submitDocumentFetch
    rw [DashCLI.applyEnvDefaults_action, hact, h4]
    have h5b : strFalsy (some did) = false := by simp [strFalsy, h5]
    rw [h5b]
    simp only [Bool.false_eq_true, if_false, Option.getD_some]
    rw [h6]
    rfl
  unfold DashCLI.submitDocumentCommand
  rw [hchk]
  dsimp only
  unfold DashPlatform.submitDocument
  rw [hgid, h1, hgcd, h2]
  simp only [Bool.false_eq_true, if_false]
  rw [hfetch, DashCLI.applyEnvDefaults_action, hact]
  rfl

/-- Options of a delete run with document data supplied, which the
delete path must ignore. -/
def c9Args : DashPlatform.Args :=
  { identityId := some "id9", contractId := some "c9", documentId := some "d9",
    address := none, network := none, topupAmount := none,
    action := some "delete", documentType := some "t9",
    documentData := some [("ignored", DashPlatform.JsVal.str "value")] }

/-- Empty environment for the delete run. -/
def c9Env : DashPlatform.Env :=
  { identityId := none, contractId := none, documentId := none,
    address := none, network := none }

/-- Stored document found by the delete run. -/
def c9Doc : DashPlatform.Document :=
  { docId := "d9", fields := [("y", DashPlatform.JsVal.num 2)] }

/-- Document world holding exactly the document d9. -/
def c9World : DashPlatform.DocWorld :=
  { getDocument := fun i => if i = "d9" then some c9Doc else none
    createDoc := fun docData => { docId := "", fields := docData } }

/-- C9 witness: the concrete delete run, with document data supplied,
returns the stored document alone in the delete sequence, untouched. -/
theorem c9_delete_batch_shape_witness :
    DashCLI.submitDocumentCommand c9Args c9Env c9World
      = Except.ok ({ create := [], replace := [], delete := [c9Doc] }, c9Doc) :=
  c9_delete_batch_shape c9Args c9Env c9World "d9" c9Doc (by decide) (by decide)
    (by decide) rfl rfl (by decide) rfl

/-- C10: the minimum top-up guard does not reject non-numeric amounts: a
truthy amount string parsing to NaN passes validation in both library
versions, since NaN compared below 50000 is false, and only an absent or
empty amount or a parsed value strictly below 50000 is rejected before
any network call. -/
theorem c10_nan_topup_guard (args : DashPlatform.Args) (env : DashPlatform.Env)
    (hid : strFalsy (DashPlatform.getIdentityId args env) = false)
    (haddr : strFalsy (DashPlatform.getAddress args env) = false) :
    (∀ s, args.topupAmount = some s → s ≠ "" → jsParseInt s = JsNum.nan →
      DashPlatform.topupIdentityGuard args env = Except.ok JsNum.nan ∧
        DashLibrary.topupIdentityGuard args.topupAmount = Except.ok JsNum.nan) ∧
      (DashPlatform.topupIdentityGuard args env
          = Except.error DashPlatform.topupAmountRequiredMsg ↔
        strFalsy args.topupAmount = true) ∧
      (∀ s n, args.topupAmount = some s → jsParseInt s = JsNum.int n →
        (DashPlatform.topupIdentityGuard args env
            = Except.error DashPlatform.topupAmountMinimumMsg ↔ n < 50000)) := by
  have hmsg : DashPlatform.topupAmountMinimumMsg ≠ DashPlatform.topupAmountRequiredMsg := by
    decide
  refine ⟨?_, ?_, ?_⟩
  · intro s hs hne hnan
    have hsf : strFalsy (some s) = false := by simp [strFalsy, hne]
    constructor
    · unfold DashPlatform.topupIdentityGuard
      rw [hid, haddr, hs, hsf, Option.getD_some, hnan]
      rfl
    · unfold DashLibrary.topupIdentityGuard
      rw [hs, hsf, Option.getD_some, hnan]
      rfl
  · cases hta : strFalsy args.topupAmount with
    | true =>
      unfold DashPlatform.topupIdentityGuard
      rw [hid, haddr, hta]
      simp
    | false =>
      unfold DashPlatform.topupIdentityGuard
      rw [hid, haddr, hta]
      simp only [Bool.false_eq_true, if_false]
      cases hlt : jsLtInt (jsParseInt (args.topupAmount.getD ""))
          DashPlatform.minimumTopupAmount with
      | true =>
        simp only [hlt, if_true]
        constructor
        · intro h
          exact absurd (Except.error.inj h) hmsg
        · intro h; cases h
      | false =>
        simp only [hlt, Bool.false_eq_true, if_false]
        constructor
        · intro h; cases h
        · intro h; cases h
  · intro s n hs hparse
    have hne : s ≠ "" := by
      intro h
      rw [h] at hparse
      have h0 : jsParseInt "" = JsNum.nan := rfl
      rw [h0] at hparse
      cases hparse
    have hsf : strFalsy (some s) = false := by simp [strFalsy, hne]
    unfold DashPlatform.topupIdentityGuard
    rw [hid, haddr, hs, hsf, Option.getD_some, hparse]
    simp only [Bool.false_eq_true, if_false]
    by_cases hn : n < 50000
    · have hb : jsLtInt (JsNum.int n) DashPlatform.minimumTopupAmount = true := by
        simp [jsLtInt, DashPlatform.minimumTopupAmount, hn]
      rw [hb]
      simp [hn]
    · have hb : jsLtInt (JsNum.int n) DashPlatform.minimumTopupAmount = false := by
        simp [jsLtInt, DashPlatform.minimumTopupAmount, hn]
      rw [hb]
      simp only [Bool.false_eq_true, if_false]
      constructor
      · intro h; cases h
      · intro h; exact absurd h hn

/-- Arguments of a top-up run whose amount string is not numeric. -/
def c10Args : DashPlatform.Args :=
  { identityId := some "id10", contractId := none, documentId := none,
    address := some "Xaddr10", network := none, topupAmount := some "abc",
    action := none, documentType := none, documentData := none }

/-- Empty environment for the top-up run. -/
def c10Env : DashPlatform.Env :=
  { identityId := none, contractId := none, documentId := none,
    address := none, network := none }

/-- C10 witness: the amount string abc parses to NaN and passes the
guard of both library versions, which return the NaN amount. -/
theorem c10_nan_topup_guard_witness :
    DashPlatform.topupIdentityGuard c10Args c10Env = Except.ok JsNum.nan ∧
      DashLibrary.topupIdentityGuard c10Args.topupAmount = Except.ok JsNum.nan := by
  have T := c10_nan_topup_guard c10Args c10Env (by decide) (by decide)
  exact T.1 "abc" rfl (by decide) (by decide)

/-- C3: when the primary RPC provider answers with a non-empty
transaction-id sequence whose first transaction record carries positive
height H, both resolver versions return H after exactly the two RPC
calls, so the Insight fallback is never invoked; and when the primary
fetch fails while the fallback returns the newest-first list holding t2
then t1, both versions reverse it, fetch t1 and return its height H2. -/
theorem c3_resolver_path_ordering
    (addr : Option String) (net : String)
    (args : DashPlatform.Args) (env : DashPlatform.Env)
    (w w2 : FetchWorld)
    (txr : TxidsResponse) (t : String) (ts : List String)
    (txd : TxResponse) (rec : TxRecord) (H : Int)
    (t1 t2 : String) (txi : InsightTxResponse) (bd : InsightTxBody) (H2 : Int)
    (haddr : strFalsy (DashPlatform.getAddress args env) = false)
    (h1 : w.rpcTxids = some txr) (h1ok : txr.ok = true)
    (h2 : txr.result = some (t :: ts))
    (h3 : w.rpcTx t = some txd) (h3ok : txd.ok = true)
    (h4 : txd.result = some rec) (h5 : rec.height = some H) (h6 : 0 < H)
    (g1 : w2.rpcTxids = none)
    (g2 : w2.insightAddr = some { ok := true, transactions := some [t2, t1] })
    (g3 : w2.insightTx t1 = some txi) (g3ok : txi.ok = true)
    (g4 : txi.body = some bd) (g5 : bd.blockheight = some H2) (g6 : 0 < H2) :
    (DashLibrary.findFirstTransactionBlock addr net w
        = (some H, [ProviderCall.rpcTxids, ProviderCall.rpcTx t])) ∧
      (DashPlatform.findStartHeight args env w
        = (Except.ok H, [ProviderCall.rpcTxids, ProviderCall.rpcTx t])) ∧
      (ProviderCall.insightAddr ∉ [ProviderCall.rpcTxids, ProviderCall.rpcTx t] ∧
        ∀ s, ProviderCall.insightTx s ∉ [ProviderCall.rpcTxids, ProviderCall.rpcTx t]) ∧
      (DashLibrary.findFirstTransactionBlock addr net w2
        = (some H2,
            [ProviderCall.rpcTxids, ProviderCall.insightAddr, ProviderCall.insightTx t1])) ∧
      (DashPlatform.findStartHeight args env w2
        = (Except.ok H2,
            [ProviderCall.rpcTxids, ProviderCall.insightAddr, ProviderCall.insightTx t1])) := by
  refine ⟨?_, ?_, ⟨by simp, by simp⟩, ?_, ?_⟩
  · unfold DashLibrary.findFirstTransactionBlock
    simp only [h1, h2, h3, h4, h5]
    rw [if_neg (by omega : ¬ H = 0)]
    simp
  · unfold DashPlatform.findStartHeight
    simp only [haddr, h1, h1ok, h2, h3, h3ok, h4, h5, Bool.false_eq_true, if_false]
    rw [if_neg (by simp : ¬ (true = false)), if_neg (by simp : ¬ (true = false)),
      if_neg (by omega : ¬ H ≤ 0)]
    simp
  · unfold DashLibrary.findFirstTransactionBlock DashLibrary.insightFallback
    simp only [g1, g2]
    norm_num
    simp only [g3, g4, g5]
    rw [if_neg (by omega : ¬ H2 = 0)]
  · unfold DashPlatform.findStartHeight DashPlatform.insightFallback
    simp only [haddr, g1, g2, Bool.false_eq_true, if_false]
    norm_num
    simp only [g3, g3ok, g4, g5]
    rw [if_neg (by simp : ¬ (true = false)), if_neg (by omega : ¬ H2 ≤ 0)]

/-- Arguments of a resolver run with a present address. -/
def c3Args : DashPlatform.Args :=
  { identityId := none, contractId := none, documentId := none,
    address := some "Xc3", network := none, topupAmount := none,
    action := none, documentType := none, documentData := none }

/-- Empty environment for the resolver runs. -/
def c3Env : DashPlatform.Env :=
  { identityId := none, contractId := none, documentId := none,
    address := none, network := none }

/-- World whose primary provider knows transaction t at height 555. -/
def c3WorldA : FetchWorld :=
  { rpcTxids := some { ok := true, result := some ["t", "t9"] }
    rpcTx := fun i =>
      if i = "t" then some { ok := true, result := some { height := some 555 } } else none
    insightAddr := none
    insightTx := fun _ => none }

/-- World whose primary fetch throws and whose fallback lists t2 then t1,
with t1 at height 777. -/
def c3WorldB : FetchWorld :=
  { rpcTxids := none
    rpcTx := fun _ => none
    insightAddr := some { ok := true, transactions := some ["t2", "t1"] }
    insightTx := fun i =>
      if i = "t1" then some { ok := true, body := some { blockheight := some 777 } }
      else none }

/-- C3 witness: on the concrete worlds, the primary path returns height
555 after the two RPC calls alone and the fallback path returns height
777 after fetching t1. -/
theorem c3_resolver_path_ordering_witness :
    (DashLibrary.findFirstTransactionBlock (some "Xc3") "mainnet" c3WorldA
        = (some 555, [ProviderCall.rpcTxids, ProviderCall.rpcTx "t"])) ∧
      (DashPlatform.findStartHeight c3Args c3Env c3WorldA
        = (Except.ok 555, [ProviderCall.rpcTxids, ProviderCall.rpcTx "t"])) ∧
      (ProviderCall.insightAddr ∉ [ProviderCall.rpcTxids, ProviderCall.rpcTx "t"] ∧
        ∀ s, ProviderCall.insightTx s ∉ [ProviderCall.rpcTxids, ProviderCall.rpcTx "t"]) ∧
      (DashLibrary.findFirstTransactionBlock (some "Xc3") "mainnet" c3WorldB
        = (some 777,
            [ProviderCall.rpcTxids, ProviderCall.insightAddr, ProviderCall.insightTx "t1"])) ∧
      (DashPlatform.findStartHeight c3Args c3Env c3WorldB
        = (Except.ok 777,
            [ProviderCall.rpcTxids, ProviderCall.insightAddr, ProviderCall.insightTx "t1"])) :=
  c3_resolver_path_ordering (some "Xc3") "mainnet" c3Args c3Env c3WorldA c3WorldB
    { ok := true, result := some ["t", "t9"] } "t" ["t9"]
    { ok := true, result := some { height := some 555 } } { height := some 555 } 555
    "t1" "t2" { ok := true, body := some { blockheight := some 777 } }
    { blockheight := some 777 } 777
    (by decide) rfl rfl rfl (by decide) rfl rfl rfl (by decide)
    rfl rfl (by decide) rfl rfl rfl (by decide)

/-- World where every provider request fails. -/
def c1World : FetchWorld :=
  { rpcTxids := none, rpcTx := fun _ => none,
    insightAddr := none, insightTx := fun _ => none }

/-- Arguments of a resolver run with a present address and no usable
transaction history. -/
def c1Args : DashPlatform.Args :=
  { identityId := none, contractId := none, documentId := none,
    address := some "XnoHistory", network := none, topupAmount := none,
    action := none, documentType := none, documentData := none }

/-- Arguments of a resolver run with no address anywhere. -/
def c1ArgsMissing : DashPlatform.Args :=
  { identityId := none, contractId := none, documentId := none,
    address := none, network := none, topupAmount := none,
    action := none, documentType := none, documentData := none }

/-- Empty environment for the failure runs. -/
def c1Env : DashPlatform.Env :=
  { identityId := none, contractId := none, documentId := none,
    address := none, network := none }

/-- C1 counterexample: with the address present and both providers
exhausted, the part_003 findStartHeight raises the wrapped
no-transaction-history error after the two failed requests instead of
returning the sentinel height 1. -/
theorem c1_total_failure_counterexample :
    DashPlatform.findStartHeight c1Args c1Env c1World
        = (Except.error DashPlatform.totalFailureMsg,
          [ProviderCall.rpcTxids, ProviderCall.insightAddr]) ∧
      (DashPlatform.findStartHeight c1Args c1Env c1World).1 ≠ Except.ok 1 := by
  constructor
  · rfl
  · intro h
    rw [show (DashPlatform.findStartHeight c1Args c1Env c1World).1
        = Except.error DashPlatform.totalFailureMsg from rfl] at h
    cases h

/-- C1 amended: the dashLibrary.js resolver never fails and collapses a
failed lookup to the sentinel height 1, but makes no address check; the
part_003 resolver raises before any provider request when the address is
missing, and on total provider failure it raises the wrapped
no-transaction-history error to the caller instead of returning 1. -/
theorem c1_resolver_failure_behavior
    (addr net : Option String) (w1 : FetchWorld)
    (args2 : DashPlatform.Args) (env2 : DashPlatform.Env) (w2 : FetchWorld)
    (args3 : DashPlatform.Args) (env3 : DashPlatform.Env) (w3 : FetchWorld)
    (h1 : (DashLibrary.findFirstTransactionBlock addr (jsOrDefault net "mainnet") w1).1 = none)
    (h2 : strFalsy (DashPlatform.getAddress args2 env2) = true)
    (h3 : strFalsy (DashPlatform.getAddress args3 env3) = false)
    (h4 : w3.rpcTxids = none) (h5 : w3.insightAddr = none) :
    (DashLibrary.findStartHeight addr net w1).1 = 1 ∧
      DashPlatform.findStartHeight args2 env2 w2
        = (Except.error DashPlatform.addrRequiredMsg, []) ∧
      (DashPlatform.findStartHeight args3 env3 w3).1
        = Except.error DashPlatform.totalFailureMsg := by
  refine ⟨?_, ?_, ?_⟩
  · unfold DashLibrary.findStartHeight
    cases hp : DashLibrary.findFirstTransactionBlock addr (jsOrDefault net "mainnet") w1 with
    | mk bh calls =>
      rw [hp] at h1
      simp only at h1
      subst h1
      simp only [hp]
  · unfold DashPlatform.findStartHeight
    simp only [h2, if_true]
  · unfold DashPlatform.findStartHeight DashPlatform.insightFallback
    simp only [h3, h4, h5, Bool.false_eq_true, if_false]

/-- C1 witness: concrete runs showing each of the three behaviors on the
all-failing world. -/
theorem c1_resolver_failure_behavior_witness :
    (DashLibrary.findStartHeight (some "XnoHistory") none c1World).1 = 1 ∧
      DashPlatform.findStartHeight c1ArgsMissing c1Env c1World
        = (Except.error DashPlatform.addrRequiredMsg, []) ∧
      (DashPlatform.findStartHeight c1Args c1Env c1World).1
        = Except.error DashPlatform.totalFailureMsg :=
  c1_resolver_failure_behavior (some "XnoHistory") none c1World
    c1ArgsMissing c1Env c1World c1Args c1Env c1World
    (by decide) (by decide) (by decide) rfl rfl
